import Mathlib

/-!
# The Skottie binding installer

A shallow embedding of `RNSkModuleManager::installBindings`
(`cpp/react-native-skia-skottie.cpp`) and of the part of the JSI interface it
drives.

* A `jsi::Runtime *` is an address; the live `jsi::Runtime` objects are kept in
  a `World`, so that two runtime instances and an invalid handle can be told
  apart.
* The global object of a runtime is an insertion-ordered list of named
  properties.
* Every collaborator call may raise a failure.  The failures of the JSI calls
  are host-defined and are described by the fault fields of `Host`; the factory
  `JsiSkSkottie::createCtor` lives in `JsiSkSkottie.h` and is a field of `Host`
  as well.
* Every collaborator call is recorded in the trace of the `World`.
-/

namespace RNSkia

/-! ## Values of the scripting runtime -/

/-- The interned name `jsi::PropNameID`, identified by its text. -/
structure PropNameID where
  utf8 : String
  deriving DecidableEq, Repr

/-- The function object built by `jsi::Function::createFromHostFunction`: the
display name, the declared argument count and the wrapped host function. -/
structure HostFunction (HF : Type) where
  name : PropNameID
  paramCount : Nat
  host : HF
  deriving DecidableEq, Repr

/-- The kinds of `jsi::Value` a global property can hold.  Objects other than
host-function objects are references into the heap of the runtime. -/
inductive Value (HF : Type) where
  | undefined
  | null
  | bool (b : Bool)
  | string (s : String)
  | object (ref : Nat)
  | function (f : HostFunction HF)
  deriving DecidableEq, Repr

/-- Whether a value can be called from script code. -/
def Value.isFunction {HF : Type} : Value HF → Bool
  | .function _ => true
  | _ => false

/-- One `jsi::Runtime` instance: the named properties of its global object, in
insertion order. -/
structure Runtime (HF : Type) where
  globalObject : List (String × Value HF)
  deriving DecidableEq, Repr

/-- Reading a named property: the first entry under that name. -/
def getProp {HF : Type} (k : String) : List (String × Value HF) → Option (Value HF)
  | [] => none
  | (k', v) :: rest => if k' = k then some v else getProp k rest

/-- Writing a named property: an existing entry is overwritten in place, a new
one is added at the end. -/
def setProp {HF : Type} (k : String) (v : Value HF) :
    List (String × Value HF) → List (String × Value HF)
  | [] => [(k, v)]
  | (k', v') :: rest => if k' = k then (k, v) :: rest else (k', v') :: setProp k v rest

/-- Reading a global property, as `rt.global().getProperty(rt, name)`. -/
def Runtime.getProperty {HF : Type} (rt : Runtime HF) (name : String) : Option (Value HF) :=
  getProp name rt.globalObject

/-! ## The collaborators -/

/-- The collaborators of the installer.  `createCtor` is
`JsiSkSkottie::createCtor`; `runHostFunction` is what running a host function on
an argument list does; the three fault fields say when the host runtime makes
`PropNameID::forAscii`, `Function::createFromHostFunction` and
`Object::setProperty` raise, and with which failure. -/
structure Host (Ctx Err HF : Type) where
  createCtor : Ctx → Except Err HF
  runHostFunction : HF → Runtime HF → List (Value HF) → Except Err (Value HF)
  forAsciiFault : Runtime HF → String → Option Err
  createFunctionFault : Runtime HF → PropNameID → Nat → HF → Option Err
  setPropertyFault : Runtime HF → String → Value HF → Option Err

/-- The call `jsi::PropNameID::forAscii(rt, str)`. -/
def PropNameID.forAscii {Ctx Err HF : Type} (h : Host Ctx Err HF) (rt : Runtime HF)
    (str : String) : Except Err PropNameID :=
  match h.forAsciiFault rt str with
  | some e => .error e
  | none => .ok ⟨str⟩

/-- The call `jsi::Function::createFromHostFunction(rt, name, paramCount, func)`. -/
def Function.createFromHostFunction {Ctx Err HF : Type} (h : Host Ctx Err HF)
    (rt : Runtime HF) (name : PropNameID) (paramCount : Nat) (func : HF) :
    Except Err (HostFunction HF) :=
  match h.createFunctionFault rt name paramCount func with
  | some e => .error e
  | none => .ok ⟨name, paramCount, func⟩

/-- The call `rt.global().setProperty(rt, name, value)`: the runtime after the
write, or the failure raised; a failed write leaves the object as it was. -/
def Object.setProperty {Ctx Err HF : Type} (h : Host Ctx Err HF) (rt : Runtime HF)
    (name : String) (value : Value HF) : Except Err (Runtime HF) :=
  match h.setPropertyFault rt name value with
  | some e => .error e
  | none => .ok ⟨setProp name value rt.globalObject⟩

/-- Calling a function object from script code runs its host function on the
arguments. -/
def HostFunction.call {Ctx Err HF : Type} (h : Host Ctx Err HF) (f : HostFunction HF)
    (rt : Runtime HF) (args : List (Value HF)) : Except Err (Value HF) :=
  h.runHostFunction f.host rt args

/-! ## The world: live runtimes and the record of collaborator calls -/

/-- One collaborator call made by the installer. -/
inductive Event (Ctx HF : Type) where
  | createCtor (context : Ctx)
  | global (rt : Nat)
  | forAscii (rt : Nat) (str : String)
  | createFromHostFunction (rt : Nat) (name : PropNameID) (paramCount : Nat) (func : HF)
  | setProperty (rt : Nat) (name : String) (value : Value HF)
  deriving DecidableEq, Repr

/-- Whether the event is a write to a global object. -/
def Event.isSetProperty {Ctx HF : Type} : Event Ctx HF → Bool
  | .setProperty _ _ _ => true
  | _ => false

/-- Whether the event is a call of `JsiSkSkottie::createCtor`. -/
def Event.isCreateCtor {Ctx HF : Type} : Event Ctx HF → Bool
  | .createCtor _ => true
  | _ => false

/-- The platform context an event hands to a collaborator, when it hands one. -/
def Event.context {Ctx HF : Type} : Event Ctx HF → Option Ctx
  | .createCtor c => some c
  | _ => none

/-- The memory the installer runs in: the live `jsi::Runtime` objects by
address, and the collaborator calls made so far. -/
structure World (Ctx HF : Type) where
  runtimes : List (Nat × Runtime HF)
  trace : List (Event Ctx HF)
  deriving DecidableEq, Repr

/-- The object stored at an address, first entry first. -/
def lookupRuntime {HF : Type} (p : Nat) : List (Nat × Runtime HF) → Option (Runtime HF)
  | [] => none
  | (q, rt) :: rest => if q = p then some rt else lookupRuntime p rest

/-- Replacing the object stored at an address. -/
def storeRuntime {HF : Type} (p : Nat) (rt : Runtime HF) :
    List (Nat × Runtime HF) → List (Nat × Runtime HF)
  | [] => []
  | (q, old) :: rest => if q = p then (p, rt) :: rest else (q, old) :: storeRuntime p rt rest

/-- Dereferencing a `jsi::Runtime *`: address 0 is the null pointer, and an
address with no live object is dangling. -/
def World.deref {Ctx HF : Type} (w : World Ctx HF) (p : Nat) : Option (Runtime HF) :=
  if p = 0 then none else lookupRuntime p w.runtimes

/-- Recording a collaborator call. -/
def World.log {Ctx HF : Type} (w : World Ctx HF) (ev : Event Ctx HF) : World Ctx HF :=
  { w with trace := w.trace ++ [ev] }

/-- The world after the runtime at `p` has changed to `rt`. -/
def World.store {Ctx HF : Type} (w : World Ctx HF) (p : Nat) (rt : Runtime HF) : World Ctx HF :=
  { w with runtimes := storeRuntime p rt w.runtimes }

/-- The global property `name` of the runtime at `p`; `none` when there is no
such runtime or no such property. -/
def World.globalProperty {Ctx HF : Type} (w : World Ctx HF) (p : Nat) (name : String) :
    Option (Value HF) :=
  match w.deref p with
  | none => none
  | some rt => rt.getProperty name

/-- How a call ends: it returns, it raises a failure that propagates to the
caller, or it has no defined behaviour (a null or dangling pointer was
dereferenced). -/
inductive Outcome (Err W : Type) where
  | returns (w : W)
  | throws (e : Err) (w : W)
  | undefinedBehaviour
  deriving DecidableEq, Repr

/-- The world a call leaves behind, when it has a defined one. -/
def Outcome.world {Err W : Type} : Outcome Err W → Option W
  | .returns w => some w
  | .throws _ w => some w
  | .undefinedBehaviour => none

/-- The failure a call propagates, when it does. -/
def Outcome.failure {Err W : Type} : Outcome Err W → Option Err
  | .throws e _ => some e
  | _ => none

/-! ## The installer -/

/-- The function `RNSkModuleManager::installBindings(jsRuntime, platformContext)`.

The first statement builds the factory.  In the second, the object expression
`jsRuntime->global()` is evaluated before the arguments of `setProperty`, the
name passed to `createFromHostFunction` before that call, and the write comes
last.  There is no `try`, and no test of `jsRuntime`. -/
def RNSkModuleManager.installBindings {Ctx Err HF : Type} (h : Host Ctx Err HF)
    (w : World Ctx HF) (jsRuntime : Nat) (platformContext : Ctx) :
    Outcome Err (World Ctx HF) :=
  let w0 := w.log (.createCtor platformContext)
  match h.createCtor platformContext with
  | .error e => .throws e w0
  | .ok createSkottie =>
    match w0.deref jsRuntime with
    | none => .undefinedBehaviour
    | some rt =>
      let w1 := w0.log (.global jsRuntime)
      let w2 := w1.log (.forAscii jsRuntime "SkottieCtor")
      match PropNameID.forAscii h rt "SkottieCtor" with
      | .error e => .throws e w2
      | .ok name =>
        let w3 := w2.log (.createFromHostFunction jsRuntime name 1 createSkottie)
        match Function.createFromHostFunction h rt name 1 createSkottie with
        | .error e => .throws e w3
        | .ok fn =>
          let w4 := w3.log (.setProperty jsRuntime "SkiaApi_SkottieCtor" (.function fn))
          match Object.setProperty h rt "SkiaApi_SkottieCtor" (.function fn) with
          | .error e => .throws e w4
          | .ok rt1 => .returns (w4.store jsRuntime rt1)

/-! ## A concrete host, for evaluation -/

/-- A host whose factory closes over the context it is given and rejects
context 0, and whose runtime refuses names longer than 40 characters. -/
def sampleHost : Host Nat String Nat where
  createCtor := fun c => if c = 0 then .error "no platform context" else .ok c
  runHostFunction := fun hf _ args => if args.length = 1 then .ok (.object hf) else .error "arity"
  forAsciiFault := fun _ s => if s.length > 40 then some "name too long" else none
  createFunctionFault := fun _ _ n _ => if n > 8 then some "too many parameters" else none
  setPropertyFault := fun _ s _ => if s.length > 40 then some "name too long" else none

/-- A world with two live runtimes, at addresses 1 and 2. -/
def sampleWorld : World Nat Nat where
  runtimes := [(1, ⟨[("console", .object 7)]⟩), (2, ⟨[("SkiaApi_SkottieCtor", .bool true)]⟩)]
  trace := []

/-- The callable the installer builds around the host function `hf`. -/
def sampleCallable (hf : Nat) : Value Nat :=
  .function ⟨⟨"SkottieCtor"⟩, 1, hf⟩

/-- The five collaborator calls of a successful installation on the runtime at
`p` with context `c`, for `sampleHost`. -/
def sampleCalls (p c : Nat) : List (Event Nat Nat) :=
  [.createCtor c, .global p, .forAscii p "SkottieCtor",
   .createFromHostFunction p ⟨"SkottieCtor"⟩ 1 c,
   .setProperty p "SkiaApi_SkottieCtor" (sampleCallable c)]

/-- The world `sampleWorld` after installing with context 5 on the runtime at
address 2, whose global key held `true` before. -/
def sampleWorldAt2 : World Nat Nat where
  runtimes := [(1, ⟨[("console", .object 7)]⟩), (2, ⟨[("SkiaApi_SkottieCtor", sampleCallable 5)]⟩)]
  trace := sampleCalls 2 5

/-- The world `sampleWorld` after installing with context 5 on the runtime at
address 1, which had no binding under the global key. -/
def sampleWorldAt1 : World Nat Nat where
  runtimes := [(1, ⟨[("console", .object 7), ("SkiaApi_SkottieCtor", sampleCallable 5)]⟩),
    (2, ⟨[("SkiaApi_SkottieCtor", .bool true)]⟩)]
  trace := sampleCalls 1 5

/-- The world `sampleWorldAt1` after a second installation on the runtime at
address 1, with context 6. -/
def sampleWorldTwice : World Nat Nat where
  runtimes := [(1, ⟨[("console", .object 7), ("SkiaApi_SkottieCtor", sampleCallable 6)]⟩),
    (2, ⟨[("SkiaApi_SkottieCtor", .bool true)]⟩)]
  trace := sampleCalls 1 5 ++ sampleCalls 1 6

/-- The world `sampleWorld` after an installation attempt with the rejected
context 0: only the factory call is on record. -/
def sampleWorldRejected : World Nat Nat where
  runtimes := sampleWorld.runtimes
  trace := [.createCtor 0]

/-! ## Named properties -/

theorem getProp_setProp_same {HF : Type} (k : String) (v : Value HF)
    (o : List (String × Value HF)) : getProp k (setProp k v o) = some v := by
  induction o with
  | nil => simp [setProp, getProp]
  | cons a rest ih =>
    obtain ⟨k', v'⟩ := a
    by_cases hk : k' = k
    · simp [setProp, getProp, hk]
    · simp [setProp, getProp, hk, ih]

theorem getProp_setProp_other {HF : Type} (k j : String) (v : Value HF)
    (o : List (String × Value HF)) (hj : j ≠ k) :
    getProp j (setProp k v o) = getProp j o := by
  induction o with
  | nil => simp [setProp, getProp, Ne.symm hj]
  | cons a rest ih =>
    obtain ⟨k', v'⟩ := a
    by_cases hk : k' = k
    · subst hk
      simp [setProp, getProp, Ne.symm hj]
    · by_cases hkj : k' = j
      · subst hkj
        simp [setProp, getProp, hj]
      · simp [setProp, getProp, hk, hkj, ih]

theorem lookupRuntime_storeRuntime_same {HF : Type} (p : Nat) (rt old : Runtime HF)
    (m : List (Nat × Runtime HF)) (hm : lookupRuntime p m = some old) :
    lookupRuntime p (storeRuntime p rt m) = some rt := by
  induction m with
  | nil => simp [lookupRuntime] at hm
  | cons a rest ih =>
    obtain ⟨q, r⟩ := a
    by_cases hq : q = p
    · simp [storeRuntime, lookupRuntime, hq]
    · simp only [lookupRuntime, hq, if_false] at hm
      simp [storeRuntime, lookupRuntime, hq, ih hm]

theorem lookupRuntime_storeRuntime_other {HF : Type} (p q : Nat) (rt : Runtime HF)
    (m : List (Nat × Runtime HF)) (hq : q ≠ p) :
    lookupRuntime q (storeRuntime p rt m) = lookupRuntime q m := by
  induction m with
  | nil => simp [storeRuntime]
  | cons a rest ih =>
    obtain ⟨a1, r⟩ := a
    by_cases ha : a1 = p
    · subst ha
      simp [storeRuntime, lookupRuntime, Ne.symm hq]
    · by_cases haq : a1 = q
      · subst haq
        simp [storeRuntime, lookupRuntime, ha]
      · simp [storeRuntime, lookupRuntime, ha, haq, ih]

@[simp]
theorem World.deref_log {Ctx HF : Type} (w : World Ctx HF) (ev : Event Ctx HF)
    (p : Nat) : (w.log ev).deref p = w.deref p := rfl

@[simp]
theorem World.runtimes_log {Ctx HF : Type} (w : World Ctx HF) (ev : Event Ctx HF) :
    (w.log ev).runtimes = w.runtimes := rfl

theorem World.deref_congr {Ctx HF : Type} {w v : World Ctx HF} (p : Nat)
    (hr : w.runtimes = v.runtimes) : w.deref p = v.deref p := by
  unfold World.deref
  rw [hr]

theorem World.deref_store_same {Ctx HF : Type} (w : World Ctx HF) (p : Nat)
    (rt old : Runtime HF) (hp : w.deref p = some old) : (w.store p rt).deref p = some rt := by
  unfold World.deref at hp ⊢
  by_cases h0 : p = 0
  · simp [h0] at hp
  · simp only [h0, if_false] at hp ⊢
    exact lookupRuntime_storeRuntime_same p rt old w.runtimes hp

theorem World.deref_store_other {Ctx HF : Type} (w : World Ctx HF) (p q : Nat)
    (rt : Runtime HF) (hq : q ≠ p) : (w.store p rt).deref q = w.deref q := by
  unfold World.deref
  by_cases h0 : q = 0
  · simp [h0]
  · simp only [h0, if_false]
    exact lookupRuntime_storeRuntime_other p q rt w.runtimes hq

/-! ## The shape of a call -/

/-- The world a successful installation leaves: the runtime at `p` has the
callable written under the global key, and five collaborator calls are on
record. -/
theorem installBindings_returns_iff {Ctx Err HF : Type} (h : Host Ctx Err HF)
    (w w' : World Ctx HF) (p : Nat) (c : Ctx) :
    RNSkModuleManager.installBindings h w p c = .returns w' ↔
      ∃ rt hf, w.deref p = some rt ∧ h.createCtor c = .ok hf ∧
        h.forAsciiFault rt "SkottieCtor" = none ∧
        h.createFunctionFault rt ⟨"SkottieCtor"⟩ 1 hf = none ∧
        h.setPropertyFault rt "SkiaApi_SkottieCtor" (.function ⟨⟨"SkottieCtor"⟩, 1, hf⟩) = none ∧
        w' = { runtimes := storeRuntime p
                 ⟨setProp "SkiaApi_SkottieCtor" (.function ⟨⟨"SkottieCtor"⟩, 1, hf⟩)
                   rt.globalObject⟩ w.runtimes,
               trace := w.trace ++
                 [.createCtor c, .global p, .forAscii p "SkottieCtor",
                  .createFromHostFunction p ⟨"SkottieCtor"⟩ 1 hf,
                  .setProperty p "SkiaApi_SkottieCtor" (.function ⟨⟨"SkottieCtor"⟩, 1, hf⟩)] } := by
  unfold RNSkModuleManager.installBindings
  cases hc : h.createCtor c with
  | error e => simp
  | ok hf =>
    cases hd : w.deref p with
    | none => simp [hd]
    | some rt =>
      cases h1 : h.forAsciiFault rt "SkottieCtor" with
      | some e => simp [hd, PropNameID.forAscii, h1]
      | none =>
        cases h2 : h.createFunctionFault rt ⟨"SkottieCtor"⟩ 1 hf with
        | some e => simp [hd, PropNameID.forAscii, h1, Function.createFromHostFunction, h2]
        | none =>
          cases h3 : h.setPropertyFault rt "SkiaApi_SkottieCtor"
              (.function ⟨⟨"SkottieCtor"⟩, 1, hf⟩) with
          | some e =>
            simp [hd, PropNameID.forAscii, h1, Function.createFromHostFunction, h2,
              Object.setProperty, h3]
          | none =>
            simp only [World.deref_log, hd, PropNameID.forAscii, h1,
              Function.createFromHostFunction, h2, Object.setProperty, h3]
            constructor
            · intro hw
              refine ⟨rt, hf, rfl, rfl, h1, h2, h3, ?_⟩
              cases hw
              simp [World.store, World.log]
            · rintro ⟨rt2, hf2, hrt, hhf, -, -, -, hw⟩
              cases hrt
              cases hhf
              subst hw
              simp [World.store, World.log]

/-- A call that raises has changed no runtime. -/
theorem installBindings_throws_runtimes {Ctx Err HF : Type} (h : Host Ctx Err HF)
    (w w' : World Ctx HF) (p : Nat) (c : Ctx) (e : Err)
    (ht : RNSkModuleManager.installBindings h w p c = .throws e w') :
    w'.runtimes = w.runtimes := by
  unfold RNSkModuleManager.installBindings at ht
  cases hc : h.createCtor c with
  | error e1 =>
    simp only [hc, Outcome.throws.injEq] at ht
    rw [← ht.2]; rfl
  | ok hf =>
    cases hd : w.deref p with
    | none => simp [hc, hd] at ht
    | some rt =>
      simp only [hc, World.deref_log, hd, PropNameID.forAscii,
        Function.createFromHostFunction, Object.setProperty] at ht
      cases h1 : h.forAsciiFault rt "SkottieCtor" with
      | some e1 =>
        simp only [h1, Outcome.throws.injEq] at ht
        rw [← ht.2]; rfl
      | none =>
        simp only [h1] at ht
        cases h2 : h.createFunctionFault rt ⟨"SkottieCtor"⟩ 1 hf with
        | some e1 =>
          simp only [h2, Outcome.throws.injEq] at ht
          rw [← ht.2]; rfl
        | none =>
          simp only [h2] at ht
          cases h3 : h.setPropertyFault rt "SkiaApi_SkottieCtor"
              (.function ⟨⟨"SkottieCtor"⟩, 1, hf⟩) with
          | some e1 =>
            simp only [h3, Outcome.throws.injEq] at ht
            rw [← ht.2]; rfl
          | none => simp [h3] at ht

/-- The runtimes a call with a defined outcome leaves: untouched, or the one at
`p` with the global key written. -/
theorem installBindings_world_runtimes {Ctx Err HF : Type} (h : Host Ctx Err HF)
    (w w' : World Ctx HF) (p : Nat) (c : Ctx)
    (hw : (RNSkModuleManager.installBindings h w p c).world = some w') :
    w'.runtimes = w.runtimes ∨
      ∃ rt hf, w.deref p = some rt ∧
        w'.runtimes = storeRuntime p
          ⟨setProp "SkiaApi_SkottieCtor" (.function ⟨⟨"SkottieCtor"⟩, 1, hf⟩) rt.globalObject⟩
          w.runtimes := by
  cases ho : RNSkModuleManager.installBindings h w p c with
  | returns w1 =>
    rw [ho] at hw
    simp only [Outcome.world, Option.some.injEq] at hw
    subst hw
    obtain ⟨rt, hf, hd, -, -, -, -, hw1⟩ := (installBindings_returns_iff h w w1 p c).mp ho
    exact Or.inr ⟨rt, hf, hd, by rw [hw1]⟩
  | throws e w1 =>
    rw [ho] at hw
    simp only [Outcome.world, Option.some.injEq] at hw
    subst hw
    exact Or.inl (installBindings_throws_runtimes h w w1 p c e ho)
  | undefinedBehaviour =>
    rw [ho] at hw
    simp [Outcome.world] at hw

/-- The world after a successful call, read at the installed key. -/
theorem installBindings_returns_binding {Ctx Err HF : Type} (h : Host Ctx Err HF)
    (w w' : World Ctx HF) (p : Nat) (c : Ctx)
    (hret : RNSkModuleManager.installBindings h w p c = .returns w') :
    ∃ hf, h.createCtor c = .ok hf ∧
      w'.globalProperty p "SkiaApi_SkottieCtor" =
        some (.function ⟨⟨"SkottieCtor"⟩, 1, hf⟩) ∧
      w'.trace = w.trace ++
        [.createCtor c, .global p, .forAscii p "SkottieCtor",
         .createFromHostFunction p ⟨"SkottieCtor"⟩ 1 hf,
         .setProperty p "SkiaApi_SkottieCtor" (.function ⟨⟨"SkottieCtor"⟩, 1, hf⟩)] := by
  obtain ⟨rt, hf, hd, hc, -, -, -, hw⟩ := (installBindings_returns_iff h w w' p c).mp hret
  refine ⟨hf, hc, ?_, by rw [hw]⟩
  have hr : w'.runtimes = (w.store p
      ⟨setProp "SkiaApi_SkottieCtor" (.function ⟨⟨"SkottieCtor"⟩, 1, hf⟩)
        rt.globalObject⟩).runtimes := by
    rw [hw]; rfl
  unfold World.globalProperty
  rw [World.deref_congr p hr, World.deref_store_same w p _ rt hd]
  simp [Runtime.getProperty, getProp_setProp_same]

/-- On a live runtime the call is the chain of its four collaborator steps. -/
theorem installBindings_live {Ctx Err HF : Type} (h : Host Ctx Err HF)
    (w : World Ctx HF) (p : Nat) (c : Ctx) (rt : Runtime HF) (hd : w.deref p = some rt) :
    RNSkModuleManager.installBindings h w p c =
      match h.createCtor c with
      | .error e => .throws e ⟨w.runtimes, w.trace ++ [.createCtor c]⟩
      | .ok hf =>
        match PropNameID.forAscii h rt "SkottieCtor" with
        | .error e => .throws e ⟨w.runtimes, w.trace ++
            [.createCtor c, .global p, .forAscii p "SkottieCtor"]⟩
        | .ok name =>
          match Function.createFromHostFunction h rt name 1 hf with
          | .error e => .throws e ⟨w.runtimes, w.trace ++
              [.createCtor c, .global p, .forAscii p "SkottieCtor",
               .createFromHostFunction p name 1 hf]⟩
          | .ok fn =>
            match Object.setProperty h rt "SkiaApi_SkottieCtor" (.function fn) with
            | .error e => .throws e ⟨w.runtimes, w.trace ++
                [.createCtor c, .global p, .forAscii p "SkottieCtor",
                 .createFromHostFunction p name 1 hf,
                 .setProperty p "SkiaApi_SkottieCtor" (.function fn)]⟩
            | .ok rt1 => .returns ⟨storeRuntime p rt1 w.runtimes, w.trace ++
                [.createCtor c, .global p, .forAscii p "SkottieCtor",
                 .createFromHostFunction p name 1 hf,
                 .setProperty p "SkiaApi_SkottieCtor" (.function fn)]⟩ := by
  unfold RNSkModuleManager.installBindings
  cases h.createCtor c with
  | error e => simp [World.log]
  | ok hf =>
    simp only [World.deref_log, hd]
    cases PropNameID.forAscii h rt "SkottieCtor" with
    | error e => simp [World.log]
    | ok name =>
      simp only []
      cases Function.createFromHostFunction h rt name 1 hf with
      | error e => simp [World.log]
      | ok fn =>
        simp only []
        cases Object.setProperty h rt "SkiaApi_SkottieCtor" (.function fn) with
        | error e => simp [World.log]
        | ok rt1 => simp [World.log, World.store]

/-- With a null or dangling handle the factory is still built first, and the
handle is then dereferenced. -/
theorem installBindings_dead {Ctx Err HF : Type} (h : Host Ctx Err HF)
    (w : World Ctx HF) (p : Nat) (c : Ctx) (hd : w.deref p = none) :
    RNSkModuleManager.installBindings h w p c =
      match h.createCtor c with
      | .error e => .throws e ⟨w.runtimes, w.trace ++ [.createCtor c]⟩
      | .ok _ => .undefinedBehaviour := by
  unfold RNSkModuleManager.installBindings
  cases h.createCtor c with
  | error e => simp [World.log]
  | ok hf => simp [hd]

/-! ## The claims -/

/-- C1: whenever `installBindings` returns normally, the global object of the
runtime it was given has a property under the key "SkiaApi_SkottieCtor" whose
value is callable, whatever the global object held before the call. -/
theorem installBindings_publishes_callable {Ctx Err HF : Type} (h : Host Ctx Err HF)
    (w w' : World Ctx HF) (p : Nat) (c : Ctx)
    (hret : RNSkModuleManager.installBindings h w p c = .returns w') :
    ∃ v, w'.globalProperty p "SkiaApi_SkottieCtor" = some v ∧ v.isFunction = true := by
  obtain ⟨hf, -, hb, -⟩ := installBindings_returns_binding h w w' p c hret
  exact ⟨_, hb, rfl⟩

theorem installBindings_publishes_callable_witness :
    RNSkModuleManager.installBindings sampleHost sampleWorld 2 5 = .returns sampleWorldAt2 ∧
      ∃ v, sampleWorldAt2.globalProperty 2 "SkiaApi_SkottieCtor" = some v ∧
        v.isFunction = true :=
  ⟨by decide, installBindings_publishes_callable sampleHost sampleWorld sampleWorldAt2 2 5
    (by decide)⟩

/-- C2: after a successful `installBindings(r, c)` the value stored under the
global key is the function object whose host function is exactly the one
`JsiSkSkottie::createCtor(c)` returned: calling the stored function on any
argument list gives the result, value or failure, of running that host function
on the same list. -/
theorem installBindings_stores_factory {Ctx Err HF : Type} (h : Host Ctx Err HF)
    (w w' : World Ctx HF) (p : Nat) (c : Ctx)
    (hret : RNSkModuleManager.installBindings h w p c = .returns w') :
    ∃ hf f, h.createCtor c = .ok hf ∧
      w'.globalProperty p "SkiaApi_SkottieCtor" = some (.function f) ∧
      f.host = hf ∧
      ∀ rt args, f.call h rt args = h.runHostFunction hf rt args := by
  obtain ⟨hf, hc, hb, -⟩ := installBindings_returns_binding h w w' p c hret
  exact ⟨hf, _, hc, hb, rfl, fun _ _ => rfl⟩

theorem installBindings_stores_factory_witness :
    RNSkModuleManager.installBindings sampleHost sampleWorld 1 5 = .returns sampleWorldAt1 ∧
      ∃ hf f, sampleHost.createCtor 5 = .ok hf ∧
        sampleWorldAt1.globalProperty 1 "SkiaApi_SkottieCtor" = some (.function f) ∧
        f.host = hf ∧
        ∀ rt args, f.call sampleHost rt args = sampleHost.runHostFunction hf rt args :=
  ⟨by decide, installBindings_stores_factory sampleHost sampleWorld sampleWorldAt1 1 5
    (by decide)⟩

/-- C3: the function object registered by a successful `installBindings` has
declared argument count 1 and display name "SkottieCtor", it was created by a
`createFromHostFunction` call with that name and count, and the display name is
not the global key "SkiaApi_SkottieCtor". -/
theorem installBindings_arity_and_name {Ctx Err HF : Type} (h : Host Ctx Err HF)
    (w w' : World Ctx HF) (p : Nat) (c : Ctx)
    (hret : RNSkModuleManager.installBindings h w p c = .returns w') :
    ∃ f, w'.globalProperty p "SkiaApi_SkottieCtor" = some (.function f) ∧
      f.paramCount = 1 ∧ f.name = ⟨"SkottieCtor"⟩ ∧
      Event.createFromHostFunction p ⟨"SkottieCtor"⟩ 1 f.host ∈ w'.trace ∧
      f.name.utf8 ≠ "SkiaApi_SkottieCtor" := by
  obtain ⟨hf, -, hb, ht⟩ := installBindings_returns_binding h w w' p c hret
  refine ⟨_, hb, rfl, rfl, ?_, ?_⟩
  · rw [ht]
    simp
  · simp only [ne_eq]
    decide

theorem installBindings_arity_and_name_witness :
    RNSkModuleManager.installBindings sampleHost sampleWorldAt1 1 6 = .returns sampleWorldTwice ∧
      ∃ f, sampleWorldTwice.globalProperty 1 "SkiaApi_SkottieCtor" = some (.function f) ∧
        f.paramCount = 1 ∧ f.name = ⟨"SkottieCtor"⟩ ∧
        Event.createFromHostFunction 1 ⟨"SkottieCtor"⟩ 1 f.host ∈ sampleWorldTwice.trace ∧
        f.name.utf8 ≠ "SkiaApi_SkottieCtor" :=
  ⟨by decide, installBindings_arity_and_name sampleHost sampleWorldAt1 sampleWorldTwice 1 6
    (by decide)⟩

/-- C5: for every property name `k` other than "SkiaApi_SkottieCtor", a call of
`installBindings` on the runtime at `p`, whether it returns or raises, leaves
the global property `k` of that runtime as it was: present with the same value,
or absent. -/
theorem installBindings_frame {Ctx Err HF : Type} (h : Host Ctx Err HF)
    (w w' : World Ctx HF) (p : Nat) (c : Ctx) (k : String)
    (hk : k ≠ "SkiaApi_SkottieCtor")
    (hw : (RNSkModuleManager.installBindings h w p c).world = some w') :
    w'.globalProperty p k = w.globalProperty p k := by
  rcases installBindings_world_runtimes h w w' p c hw with hr | ⟨rt, hf, hd, hr⟩
  · unfold World.globalProperty
    rw [World.deref_congr p hr]
  · have hr2 : w'.runtimes = (w.store p
        ⟨setProp "SkiaApi_SkottieCtor" (.function ⟨⟨"SkottieCtor"⟩, 1, hf⟩)
          rt.globalObject⟩).runtimes := hr
    unfold World.globalProperty
    rw [World.deref_congr p hr2, World.deref_store_same w p _ rt hd, hd]
    exact getProp_setProp_other _ _ _ _ hk

theorem installBindings_frame_witness :
    ("console" ≠ "SkiaApi_SkottieCtor" ∧
      (RNSkModuleManager.installBindings sampleHost sampleWorld 1 5).world =
        some sampleWorldAt1) ∧
      sampleWorldAt1.globalProperty 1 "console" = sampleWorld.globalProperty 1 "console" :=
  ⟨⟨by decide, by decide⟩,
    installBindings_frame sampleHost sampleWorld sampleWorldAt1 1 5 "console"
      (by decide) (by decide)⟩

/-- C6: for two distinct runtime addresses, a call of `installBindings` on the
first, whether it returns or raises, leaves the second runtime as it was, with
every global property of it, the one under "SkiaApi_SkottieCtor" included; and
what the call does to its own runtime, and whether it fails, depends on that
runtime alone: not on the other runtimes, nor on the record of earlier calls. -/
theorem installBindings_isolated {Ctx Err HF : Type} (h : Host Ctx Err HF)
    (w : World Ctx HF) (p1 p2 : Nat) (c : Ctx) (hne : p2 ≠ p1) :
    (∀ w', (RNSkModuleManager.installBindings h w p1 c).world = some w' →
      w'.deref p2 = w.deref p2 ∧ ∀ k, w'.globalProperty p2 k = w.globalProperty p2 k) ∧
    (∀ v : World Ctx HF, v.deref p1 = w.deref p1 →
      (RNSkModuleManager.installBindings h v p1 c).failure =
        (RNSkModuleManager.installBindings h w p1 c).failure ∧
      (RNSkModuleManager.installBindings h v p1 c).world.map (fun x => x.deref p1) =
        (RNSkModuleManager.installBindings h w p1 c).world.map (fun x => x.deref p1)) := by
  constructor
  · intro w' hw
    have hd : w'.deref p2 = w.deref p2 := by
      rcases installBindings_world_runtimes h w w' p1 c hw with hr | ⟨rt, hf, -, hr⟩
      · exact World.deref_congr p2 hr
      · have hr2 : w'.runtimes = (w.store p1
            ⟨setProp "SkiaApi_SkottieCtor" (.function ⟨⟨"SkottieCtor"⟩, 1, hf⟩)
              rt.globalObject⟩).runtimes := hr
        rw [World.deref_congr p2 hr2]
        exact World.deref_store_other w p1 p2 _ hne
    refine ⟨hd, fun k => ?_⟩
    unfold World.globalProperty
    rw [hd]
  · intro v hv
    have hv' : ∀ t : List (Event Ctx HF), (World.mk v.runtimes t).deref p1 = v.deref p1 :=
      fun _ => rfl
    have hw' : ∀ t : List (Event Ctx HF), (World.mk w.runtimes t).deref p1 = w.deref p1 :=
      fun _ => rfl
    cases hd : w.deref p1 with
    | none =>
      rw [hd] at hv
      rw [installBindings_dead h v p1 c hv, installBindings_dead h w p1 c hd]
      cases h.createCtor c with
      | error e => simp [Outcome.failure, Outcome.world, hv', hw', hv, hd]
      | ok hf => simp [Outcome.failure, Outcome.world]
    | some rt =>
      rw [hd] at hv
      rw [installBindings_live h v p1 c rt hv, installBindings_live h w p1 c rt hd]
      cases h.createCtor c with
      | error e => simp [Outcome.failure, Outcome.world, hv', hw', hv, hd]
      | ok hf =>
        simp only []
        cases PropNameID.forAscii h rt "SkottieCtor" with
        | error e => simp [Outcome.failure, Outcome.world, hv', hw', hv, hd]
        | ok name =>
          simp only []
          cases Function.createFromHostFunction h rt name 1 hf with
          | error e => simp [Outcome.failure, Outcome.world, hv', hw', hv, hd]
          | ok fn =>
            simp only []
            cases Object.setProperty h rt "SkiaApi_SkottieCtor" (.function fn) with
            | error e => simp [Outcome.failure, Outcome.world, hv', hw', hv, hd]
            | ok rt1 =>
              simp only [Outcome.failure, Outcome.world, Option.map_some', true_and]
              have e1 : ∀ (u : World Ctx HF) (t : List (Event Ctx HF)), u.deref p1 = some rt →
                  (World.mk (storeRuntime p1 rt1 u.runtimes) t).deref p1 = some rt1 :=
                fun u t hu => World.deref_store_same u p1 rt1 rt hu
              rw [e1 v _ hv, e1 w _ hd]

theorem installBindings_isolated_witness :
    ((2 : Nat) ≠ 1 ∧
      (RNSkModuleManager.installBindings sampleHost sampleWorld 1 5).world =
        some sampleWorldAt1) ∧
    (sampleWorldAt1.deref 2 = sampleWorld.deref 2 ∧
      ∀ k, sampleWorldAt1.globalProperty 2 k = sampleWorld.globalProperty 2 k) ∧
    sampleWorldRejected.deref 1 = sampleWorld.deref 1 ∧
    ((RNSkModuleManager.installBindings sampleHost sampleWorldRejected 1 5).failure =
        (RNSkModuleManager.installBindings sampleHost sampleWorld 1 5).failure ∧
      (RNSkModuleManager.installBindings sampleHost sampleWorldRejected 1 5).world.map
          (fun x => x.deref 1) =
        (RNSkModuleManager.installBindings sampleHost sampleWorld 1 5).world.map
          (fun x => x.deref 1)) :=
  ⟨⟨by decide, by decide⟩,
    (installBindings_isolated sampleHost sampleWorld 1 2 5 (by decide)).1 sampleWorldAt1
      (by decide),
    by decide,
    (installBindings_isolated sampleHost sampleWorld 1 2 5 (by decide)).2 sampleWorldRejected
      (by decide)⟩

/-- C7: on a live runtime `installBindings` either returns or raises, and it
raises the failure `e` exactly when one of its collaborator steps, taken in
order (building the factory with `createCtor`, creating the property name,
creating the host function, setting the global property), raises `e` after the
steps before it have succeeded. -/
theorem installBindings_fails_iff {Ctx Err HF : Type} (h : Host Ctx Err HF)
    (w : World Ctx HF) (p : Nat) (c : Ctx) (rt : Runtime HF) (e : Err)
    (hlive : w.deref p = some rt) :
    ((RNSkModuleManager.installBindings h w p c).failure = some e ↔
      h.createCtor c = .error e ∨
      ∃ hf, h.createCtor c = .ok hf ∧
        (PropNameID.forAscii h rt "SkottieCtor" = .error e ∨
         ∃ name, PropNameID.forAscii h rt "SkottieCtor" = .ok name ∧
           (Function.createFromHostFunction h rt name 1 hf = .error e ∨
            ∃ fn, Function.createFromHostFunction h rt name 1 hf = .ok fn ∧
              Object.setProperty h rt "SkiaApi_SkottieCtor" (.function fn) = .error e))) ∧
    ((∃ w', RNSkModuleManager.installBindings h w p c = .returns w') ∨
      ∃ e1 w', RNSkModuleManager.installBindings h w p c = .throws e1 w') := by
  rw [installBindings_live h w p c rt hlive]
  cases hc : h.createCtor c with
  | error e1 => simp [Outcome.failure]
  | ok hf =>
    cases h1 : PropNameID.forAscii h rt "SkottieCtor" with
    | error e1 => simp [Outcome.failure]
    | ok name =>
      cases h2 : Function.createFromHostFunction h rt name 1 hf with
      | error e1 => simp [Outcome.failure, h2]
      | ok fn =>
        cases h3 : Object.setProperty h rt "SkiaApi_SkottieCtor" (.function fn) with
        | error e1 => simp [Outcome.failure, h2, h3]
        | ok rt1 => simp [Outcome.failure, h2, h3]

theorem installBindings_fails_iff_witness :
    sampleWorld.deref 1 = some ⟨[("console", .object 7)]⟩ ∧
      (RNSkModuleManager.installBindings sampleHost sampleWorld 1 0).failure =
        some "no platform context" :=
  ⟨by decide,
    (installBindings_fails_iff sampleHost sampleWorld 1 0 ⟨[("console", .object 7)]⟩
      "no platform context" (by decide)).1.mpr (Or.inl rfl)⟩

/-- C8, as stated, fails: with the null handle and a factory that builds, the
call raises nothing; it dereferences the null pointer, which has no defined
behaviour. -/
theorem installBindings_null_handle_counterexample :
    sampleWorld.deref 0 = none ∧ sampleHost.createCtor 5 = .ok 5 ∧
      RNSkModuleManager.installBindings sampleHost sampleWorld 0 5 = .undefinedBehaviour ∧
      (RNSkModuleManager.installBindings sampleHost sampleWorld 0 5).failure = none ∧
      ¬ ∃ e w', RNSkModuleManager.installBindings sampleHost sampleWorld 0 5 = .throws e w' := by
  refine ⟨by decide, rfl, by decide, by decide, ?_⟩
  rintro ⟨e, w', hx⟩
  have hu : RNSkModuleManager.installBindings sampleHost sampleWorld 0 5 =
      .undefinedBehaviour := by decide
  rw [hu] at hx
  cases hx

/-- C8, amended: `installBindings` does not test its runtime handle.  With a
null or dangling handle it still calls `createCtor` first; a failure of
`createCtor` propagates to the caller; when `createCtor` succeeds the handle is
dereferenced, which has no defined behaviour, so no failure is raised; and
whenever the call has a defined outcome no runtime has changed. -/
theorem installBindings_invalid_handle {Ctx Err HF : Type} (h : Host Ctx Err HF)
    (w : World Ctx HF) (p : Nat) (c : Ctx) (hinv : w.deref p = none) :
    (∀ e, h.createCtor c = .error e →
      RNSkModuleManager.installBindings h w p c = .throws e (w.log (.createCtor c))) ∧
    (∀ hf, h.createCtor c = .ok hf →
      RNSkModuleManager.installBindings h w p c = .undefinedBehaviour) ∧
    (∀ w', (RNSkModuleManager.installBindings h w p c).world = some w' →
      w'.runtimes = w.runtimes) := by
  refine ⟨?_, ?_, ?_⟩
  · intro e he
    rw [installBindings_dead h w p c hinv, he]
    rfl
  · intro hf hc
    rw [installBindings_dead h w p c hinv, hc]
  · intro w' hw
    rcases installBindings_world_runtimes h w w' p c hw with hr | ⟨rt, -, hd, -⟩
    · exact hr
    · rw [hinv] at hd
      cases hd

theorem installBindings_invalid_handle_witness :
    sampleWorld.deref 9 = none ∧
      RNSkModuleManager.installBindings sampleHost sampleWorld 9 0 =
        .throws "no platform context" (sampleWorld.log (.createCtor 0)) ∧
      RNSkModuleManager.installBindings sampleHost sampleWorld 9 5 = .undefinedBehaviour :=
  ⟨by decide,
    (installBindings_invalid_handle sampleHost sampleWorld 9 0 (by decide)).1 _ rfl,
    (installBindings_invalid_handle sampleHost sampleWorld 9 5 (by decide)).2.1 5 rfl⟩

/-- C9: a successful `installBindings(r, c)` makes five collaborator calls, the
first being `createCtor(c)`; among them there is exactly one write to a global
object, the `setProperty` on the runtime `r` under "SkiaApi_SkottieCtor", and
exactly one call of `createCtor`, with `c`, which is the only call that is
handed the platform context; and the global object of `r` afterwards is the
one before with that single property written. -/
theorem installBindings_effects {Ctx Err HF : Type} (h : Host Ctx Err HF)
    (w w' : World Ctx HF) (p : Nat) (c : Ctx)
    (hret : RNSkModuleManager.installBindings h w p c = .returns w') :
    ∃ rt hf evs, w.deref p = some rt ∧ h.createCtor c = .ok hf ∧
      w'.trace = w.trace ++ evs ∧ evs.length = 5 ∧
      evs.head? = some (.createCtor c) ∧
      evs.filter Event.isSetProperty =
        [.setProperty p "SkiaApi_SkottieCtor" (.function ⟨⟨"SkottieCtor"⟩, 1, hf⟩)] ∧
      evs.filter Event.isCreateCtor = [.createCtor c] ∧
      evs.filterMap Event.context = [c] ∧
      w'.deref p = some ⟨setProp "SkiaApi_SkottieCtor"
        (.function ⟨⟨"SkottieCtor"⟩, 1, hf⟩) rt.globalObject⟩ := by
  obtain ⟨rt, hf, hd, hc, -, -, -, hw⟩ := (installBindings_returns_iff h w w' p c).mp hret
  refine ⟨rt, hf,
    [.createCtor c, .global p, .forAscii p "SkottieCtor",
     .createFromHostFunction p ⟨"SkottieCtor"⟩ 1 hf,
     .setProperty p "SkiaApi_SkottieCtor" (.function ⟨⟨"SkottieCtor"⟩, 1, hf⟩)],
    hd, hc, by rw [hw], rfl, rfl, rfl, rfl, rfl, ?_⟩
  have hr : w'.runtimes = (w.store p
      ⟨setProp "SkiaApi_SkottieCtor" (.function ⟨⟨"SkottieCtor"⟩, 1, hf⟩)
        rt.globalObject⟩).runtimes := by
    rw [hw]; rfl
  rw [World.deref_congr p hr, World.deref_store_same w p _ rt hd]

theorem installBindings_effects_witness :
    RNSkModuleManager.installBindings sampleHost sampleWorldRejected 2 5 =
        .returns ⟨sampleWorldAt2.runtimes, [.createCtor 0] ++ sampleCalls 2 5⟩ ∧
      ∃ rt hf evs, sampleWorldRejected.deref 2 = some rt ∧ sampleHost.createCtor 5 = .ok hf ∧
        [.createCtor 0] ++ sampleCalls 2 5 = sampleWorldRejected.trace ++ evs ∧
        evs.length = 5 ∧
        evs.head? = some (.createCtor 5) ∧
        evs.filter Event.isSetProperty =
          [.setProperty 2 "SkiaApi_SkottieCtor" (.function ⟨⟨"SkottieCtor"⟩, 1, hf⟩)] ∧
        evs.filter Event.isCreateCtor = [.createCtor 5] ∧
        evs.filterMap Event.context = [5] ∧
        (World.mk sampleWorldAt2.runtimes ([.createCtor 0] ++ sampleCalls 2 5)).deref 2 =
          some ⟨setProp "SkiaApi_SkottieCtor"
            (.function ⟨⟨"SkottieCtor"⟩, 1, hf⟩) rt.globalObject⟩ :=
  ⟨by decide, installBindings_effects sampleHost sampleWorldRejected
    ⟨sampleWorldAt2.runtimes, [.createCtor 0] ++ sampleCalls 2 5⟩ 2 5 (by decide)⟩

/-- C10: on a live runtime, when `createCtor`, `PropNameID::forAscii` or
`Function::createFromHostFunction` raises `e`, `installBindings` raises `e`, no
write to a global object has been made, and every runtime, so every global
property of the runtime it was given, a binding under "SkiaApi_SkottieCtor"
included, is what it was before the call. -/
theorem installBindings_atomic {Ctx Err HF : Type} (h : Host Ctx Err HF)
    (w : World Ctx HF) (p : Nat) (c : Ctx) (rt : Runtime HF) (e : Err)
    (hlive : w.deref p = some rt)
    (hfail : h.createCtor c = .error e ∨
      ∃ hf, h.createCtor c = .ok hf ∧
        (PropNameID.forAscii h rt "SkottieCtor" = .error e ∨
         ∃ name, PropNameID.forAscii h rt "SkottieCtor" = .ok name ∧
           Function.createFromHostFunction h rt name 1 hf = .error e)) :
    ∃ w' evs, RNSkModuleManager.installBindings h w p c = .throws e w' ∧
      w'.runtimes = w.runtimes ∧
      (∀ k, w'.globalProperty p k = w.globalProperty p k) ∧
      w'.trace = w.trace ++ evs ∧ evs.filter Event.isSetProperty = [] := by
  have key : ∀ (t : List (Event Ctx HF)) (k : String),
      (World.mk w.runtimes t).globalProperty p k = w.globalProperty p k := fun _ _ => rfl
  rw [installBindings_live h w p c rt hlive]
  rcases hfail with hc | ⟨hf, hc, h1 | ⟨name, h1, h2⟩⟩
  · rw [hc]
    exact ⟨_, _, rfl, rfl, key _, rfl, rfl⟩
  · rw [hc]
    simp only [h1]
    exact ⟨_, _, rfl, rfl, key _, rfl, rfl⟩
  · rw [hc]
    simp only [h1, h2]
    exact ⟨_, _, rfl, rfl, key _, rfl, rfl⟩

theorem installBindings_atomic_witness :
    (sampleWorldAt2.deref 2 = some ⟨[("SkiaApi_SkottieCtor", sampleCallable 5)]⟩ ∧
      sampleHost.createCtor 0 = .error "no platform context") ∧
    ∃ w' evs, RNSkModuleManager.installBindings sampleHost sampleWorldAt2 2 0 =
        .throws "no platform context" w' ∧
      w'.runtimes = sampleWorldAt2.runtimes ∧
      (∀ k, w'.globalProperty 2 k = sampleWorldAt2.globalProperty 2 k) ∧
      w'.trace = sampleWorldAt2.trace ++ evs ∧ evs.filter Event.isSetProperty = [] :=
  ⟨⟨by decide, rfl⟩,
    installBindings_atomic sampleHost sampleWorldAt2 2 0
      ⟨[("SkiaApi_SkottieCtor", sampleCallable 5)]⟩ "no platform context" (by decide)
      (Or.inl rfl)⟩

end RNSkia
